import Mathlib

/-!
Verification development for the Live Scribe repository
(`scribe.py`, `scribe_cli.py`, `summary_tester.py`).

The repository is a producer/consumer pipeline: an audio callback enqueues
driver buffers, a background loop batches them into windows of
`SAMPLE_RATE * CHUNK_DURATION` samples and submits each window to a
transcription service, and the front-end loop drains transcribed lines into a
log and periodically submits the newly accumulated text to a summarization
service.  The definitions below are a shallow embedding of that pipeline:
external services (`mlx_whisper.transcribe`, `ollama.chat`) are modelled as
function parameters returning `Except String String` (an exception carrying
its message, or the returned text), queues become lists, and wall-clock
timestamps become string parameters.

Python string primitives used by the code (`str.strip`, `str.split`,
`"…".join`, the `in` substring test) are embedded as executable definitions
over `String`/`List Char` so that concrete instances reduce inside the
kernel.
-/

namespace LiveScribe

/-! ## Python string primitives -/

/-- Python `str.strip()`: remove leading and trailing whitespace. -/
def pyStrip (s : String) : String :=
  ⟨((s.data.dropWhile Char.isWhitespace).reverse.dropWhile Char.isWhitespace).reverse⟩

/-- Helper for `pySplit`: scan the character list, cutting at each
(non-overlapping, leftmost-first) occurrence of the separator
`s0 :: srest`.  `cur` holds the current field reversed; `fuel` bounds the
recursion (one unit per character consumed, so `fuel = l.length` always
suffices and the `0`-fuel fallback is unreachable from `pySplit`). -/
def pySplitAux (s0 : Char) (srest : List Char) : Nat → List Char → List Char → List (List Char)
  | _, [], cur => [cur.reverse]
  | 0, l, cur => [cur.reverse ++ l]
  | fuel + 1, c :: rest, cur =>
    if (s0 :: srest).isPrefixOf (c :: rest) then
      cur.reverse :: pySplitAux s0 srest fuel (rest.drop srest.length) []
    else
      pySplitAux s0 srest fuel rest (c :: cur)

/-- Python `s.split(sep)` for a non-empty separator (Python raises
`ValueError` on an empty separator; the code only splits on `"]** "`). -/
def pySplit (s sep : String) : List String :=
  match sep.data with
  | [] => [s]
  | s0 :: srest => (pySplitAux s0 srest s.data.length s.data []).map fun l => ⟨l⟩

/-- Helper for `pyContains`: does `pat` occur as a contiguous sublist? -/
def pyContainsAux (pat : List Char) : List Char → Bool
  | [] => pat.isEmpty
  | c :: rest => pat.isPrefixOf (c :: rest) || pyContainsAux pat rest

/-- Python `sub in s` (substring containment). -/
def pyContains (s sub : String) : Bool := pyContainsAux sub.data s.data

/-! ## Configuration constants -/

/-- Audio samples: the code stores float32 samples but no claim depends on
sample values, only on their counts, so we embed them as `Int`. -/
abbrev Sample := Int

/-- Constant `SAMPLE_RATE` in both `scribe.py` and `scribe_cli.py`. -/
def SAMPLE_RATE : Nat := 16000

namespace Scribe

/-- Constant `CHUNK_DURATION` in `scribe.py`. -/
def CHUNK_DURATION : Nat := 7

/-- Constant `SUMMARY_INTERVAL` in `scribe.py`. -/
def SUMMARY_INTERVAL : Nat := 25

end Scribe

namespace ScribeCli

/-- Constant `CHUNK_DURATION` in `scribe_cli.py`. -/
def CHUNK_DURATION : Nat := 5

/-- Constant `SUMMARY_INTERVAL` in `scribe_cli.py`. -/
def SUMMARY_INTERVAL : Nat := 15

end ScribeCli

/-!
## Batching loop (`processing_thread`, identical in both files up to the
`CHUNK_DURATION` constant)

The inner `while len(audio_chunk) < SAMPLE_RATE * CHUNK_DURATION` loop drains
the audio queue, extending `audio_chunk` by whole driver buffers until the
threshold is reached.  We model the queue contents as a list of buffers; when
the model runs out of queued buffers the real loop would busy-wait, so the
model simply returns what it has accumulated (theorems about full windows
carry a supply hypothesis).
-/

/-- One run of the inner accumulation loop: starting from `acc`
(`audio_chunk`), take whole buffers off the queue while
`acc.length < threshold`; returns the accumulated window and the remaining
queue.  `threshold` stands for `SAMPLE_RATE * CHUNK_DURATION`. -/
def collectChunk (threshold : Nat) : List (List Sample) → List Sample → List Sample × List (List Sample)
  | [], acc => (acc, [])
  | data :: rest, acc =>
    if acc.length < threshold then collectChunk threshold rest (acc ++ data)
    else (acc, data :: rest)

/-- The f-string `f"**[…]** …"` formatting a transcript line. -/
def formatLine (timestamp text : String) : String :=
  "**[" ++ timestamp ++ "]** " ++ text

/-- The transcription step for one accumulated window `np_audio`
(the `try` block of `processing_thread`).  `tf` models
`mlx_whisper.transcribe` followed by the `['text']` lookup: it either raises
(`Except.error`) or returns the raw text.  The code strips the text and
enqueues `(formatted, np_audio)` on the results queue only when the stripped
text is non-empty (`if text:`); an exception is caught (only printed) and
nothing is enqueued. -/
def transcribeWindow (tf : List Sample → Except String String) (timestamp : String)
    (np_audio : List Sample) : Option (String × List Sample) :=
  match tf np_audio with
  | Except.error _ => none
  | Except.ok raw =>
    let text := pyStrip raw
    if text = "" then none
    else some (formatLine timestamp text, np_audio)

/-- Run `fuel` iterations of the outer `while True` loop of `processing_thread`.
Each iteration starts from a fresh empty `audio_chunk` (the
`audio_chunk = []` at the top of the loop body), accumulates a window with
`collectChunk`, submits it to the transcription service and enqueues the
result (if any).  `tss` supplies the wall-clock timestamps, one per
iteration.  Returns the list of results enqueued on the results queue and
the list of windows submitted to the transcription service (one entry per
transcription call).  An iteration whose window cannot be filled from the
queued buffers models the loop blocked busy-waiting for audio: it makes no
transcription call. -/
def processingLoop (tf : List Sample → Except String String) (threshold : Nat) :
    List String → Nat → List (List Sample) → List (String × List Sample) × List (List Sample)
  | _, 0, _ => ([], [])
  | tss, fuel + 1, q =>
    let step := collectChunk threshold q []
    if step.1.length < threshold then ([], [])
    else
      let rest := processingLoop tf threshold tss.tail fuel step.2
      ((transcribeWindow tf (tss.headD "") step.1).toList ++ rest.1, step.1 :: rest.2)

/-!
## Summarization (`generate_summary` and the summary check, identical in
both files up to the `SUMMARY_INTERVAL` constant)
-/

/-- The f-string prompt built by `generate_summary` around `text_block`. -/
def buildPrompt (text_block : String) : String :=
  "\n    [INST]\n    You are a strategic advisor. Analyze this transcript segment.\n    \n    TASK:\n    1. Detect the Tone.\n    2. Find 2 hidden implications (what is being avoided or implied?).\n    3. Formulate 1 sharp follow-up question.\n\n    REQUIRED OUTPUT FORMAT:\n    Mood: [Tone]\n    - [Implication 1]\n    - [Implication 2]\n    - Qn: [Your Strategic Question?]\n\n    RULES:\n    - Keep points under 15 words.\n    - No intro text.\n    - The last point MUST start with \"Qn:\".\n\n    TRANSCRIPT SEGMENT:\n    " ++ text_block ++ "\n    [/INST]\n    "

/-- Function `generate_summary`: call the summarization service (`ollama.chat`,
modelled by `chat`) on the prompt; on success return the response content,
on an exception `e` catch it and return the visible error string
`f"⚠️ LLM Error: {e}"`. -/
def generate_summary (chat : String → Except String String) (text_block : String) : String :=
  match chat (buildPrompt text_block) with
  | Except.ok content => content
  | Except.error e => "⚠️ LLM Error: " ++ e

/-- The expression `line.split("]** ")[-1]`: strip the `**[HH:MM:SS]** ` prefix from a
transcript line.  (`pySplit` never returns `[]`, so the default is dead.) -/
def stripTimestamp (line : String) : String :=
  (pySplit line "]** ").getLastD ""

/-- Result of one summary check: the updated `summary_log`, the updated
`last_summary_idx`, and the `clean_text` submitted to `generate_summary`
(`none` when the threshold was not crossed and no call was made; `some`
records exactly one call). -/
structure SummaryCheckResult where
  summary_log : String
  last_summary_idx : Nat
  submitted : Option String

/-- The summary check run once per front-end tick (the `col2` block of
`scribe.py`; the equivalent block in `scribe_cli.main`): when
`current_len - last_summary_idx >= SUMMARY_INTERVAL` (computed over Python
ints, hence the `Int` cast), join the timestamp-stripped recent lines with
`" "`, call `generate_summary`, append the timestamped summary block and
advance the boundary to `current_len`. -/
def summaryCheck (interval : Nat) (chat : String → Except String String) (timestamp : String)
    (transcript_text : List String) (summary_log : String) (last_summary_idx : Nat) :
    SummaryCheckResult :=
  let current_len := transcript_text.length
  if (interval : Int) ≤ (current_len : Int) - (last_summary_idx : Int) then
    let recent_lines := transcript_text.drop last_summary_idx
    let clean_text := String.intercalate " " (recent_lines.map stripTimestamp)
    let new_summary := generate_summary chat clean_text
    ⟨summary_log ++ "\n\n**Time " ++ timestamp ++ "**\n" ++ new_summary,
     current_len, some clean_text⟩
  else
    ⟨summary_log, last_summary_idx, none⟩

/-!
## Front-end state and tick

Both front ends keep the same five pieces of state (`st.session_state` in
`scribe.py`; module globals in `scribe_cli.py`) and perform the same two
actions per tick: drain the results queue into `transcript_text` /
`audio_buffer`, then run the summary check.
-/

/-- The shared mutable state of either front end. -/
structure AppState where
  recording : Bool
  transcript_text : List String
  audio_buffer : List (List Sample)
  summary_log : String
  last_summary_idx : Nat
deriving DecidableEq

/-- One tick of either front end: `results` is the drained contents of the
results queue (the `while not result_q.empty()` loop appends each `text` to
`transcript_text` and each `raw_audio` to `audio_buffer`), after which the
summary check runs. -/
def tick (interval : Nat) (chat : String → Except String String) (timestamp : String)
    (results : List (String × List Sample)) (s : AppState) : AppState :=
  let transcript := s.transcript_text ++ results.map Prod.fst
  let audio := s.audio_buffer ++ results.map Prod.snd
  let r := summaryCheck interval chat timestamp transcript s.summary_log s.last_summary_idx
  ⟨s.recording, transcript, audio, r.summary_log, r.last_summary_idx⟩

/-! ## Save actions -/

/-- What a save writes to disk: the contents of `meeting_audio.wav` (the
concatenated audio buffer) and of `meeting_transcript.txt`, `none` when the
corresponding file is not written at all.  Both files are opened in `"w"`
mode, so a written file overwrites any existing one. -/
structure SaveOutput where
  audio_file : Option (List Sample)
  transcript_file : Option String
deriving DecidableEq

/-- The `scribe.py` save button (`c2` block): the audio dump is guarded by
`if st.session_state.audio_buffer:`, but the transcript file is always
written, as `"\n".join(transcript_text)`. -/
def scribeSaveFiles (s : AppState) : SaveOutput :=
  ⟨if s.audio_buffer.isEmpty then none else some s.audio_buffer.flatten,
   some (String.intercalate "\n" s.transcript_text)⟩

/-- Function `save_data` in `scribe_cli.py`: both the audio dump (`if audio_buffer:`)
and the transcript write (`if transcript_text:`) are guarded by a
non-emptiness check. -/
def save_data_files (s : AppState) : SaveOutput :=
  ⟨if s.audio_buffer.isEmpty then none else some s.audio_buffer.flatten,
   if s.transcript_text.isEmpty then none
   else some (String.intercalate "\n" s.transcript_text)⟩

/-- The `scribe.py` save action as a state transition: the handler reads the
state and writes files but assigns no state variable. -/
def scribeSaveAction (s : AppState) : AppState × SaveOutput :=
  (s, scribeSaveFiles s)

/-- The `scribe_cli.py` save action as a state transition: `save_data` reads
the globals and writes files but assigns none of them. -/
def save_data_action (s : AppState) : AppState × SaveOutput :=
  (s, save_data_files s)

/-! ## Device selection -/

/-- One entry of `sd.query_devices()`: the fields the code reads. -/
structure Device where
  name : String
  max_input_channels : Nat
  index : Nat
deriving DecidableEq

/-- The filter `[d for d in device_list if d['max_input_channels'] > 0]`. -/
def inputDevices (device_list : List Device) : List Device :=
  device_list.filter fun d => decide (0 < d.max_input_channels)

/-- The `for i, name in enumerate(...): if "BlackHole" in name: ...; break`
scan, returning the index of the first name containing `"BlackHole"`
(`none` when there is none). -/
def findBlackHoleIdx : List String → Option Nat
  | [] => none
  | n :: rest =>
    if pyContains n "BlackHole" then some 0
    else (findBlackHoleIdx rest).map fun i => i + 1

/-- Variable `input_names` in the `scribe.py` sidebar. -/
def scribeInputNames (device_list : List Device) : List String :=
  (inputDevices device_list).map Device.name

/-- Variable `default_idx` in the `scribe.py` sidebar: starts at `0` and is set to the
index of the first input name containing `"BlackHole"`, if any. -/
def scribeDefaultIdx (input_names : List String) : Nat :=
  (findBlackHoleIdx input_names).getD 0

/-- The default entry of the `scribe.py` `selectbox` (`input_names` at
`default_idx`): the device name selected in absence of user interaction. -/
def scribeDefaultSelection (device_list : List Device) : Option String :=
  (scribeInputNames device_list).get? (scribeDefaultIdx (scribeInputNames device_list))

/-- Function `select_input_device` in `scribe_cli.py` when the user answers the
prompt with an empty line: `default_idx` is the first `"BlackHole"` index or
`-1`; on empty input `dev_idx` becomes `default_idx` when it is not `-1` and
otherwise `int("" or 0) = 0`; the chosen entry of `input_devices` is
returned.  An empty `input_devices` makes the code `sys.exit(1)`, modelled
as `none`. -/
def cliDefaultSelection (device_list : List Device) : Option Device :=
  let input_devs := inputDevices device_list
  if input_devs.isEmpty then none
  else
    let dev_idx := (findBlackHoleIdx (input_devs.map Device.name)).getD 0
    input_devs.get? dev_idx

/-! ## Helper lemmas -/

/-- Unfolding lemma for one filled-window iteration of `processingLoop`:
when the window accumulated from the fresh empty buffer reaches the
threshold, the iteration submits exactly that window and recurses on the
remaining queue. -/
theorem processingLoop_step (tf : List Sample → Except String String) (threshold : Nat)
    (tss : List String) (fuel : Nat) (q : List (List Sample))
    (hfull : threshold ≤ ((collectChunk threshold q []).1).length) :
    processingLoop tf threshold tss (fuel + 1) q =
      ((transcribeWindow tf (tss.headD "") (collectChunk threshold q []).1).toList ++
         (processingLoop tf threshold tss.tail fuel ((collectChunk threshold q []).2)).1,
       (collectChunk threshold q []).1 ::
         (processingLoop tf threshold tss.tail fuel ((collectChunk threshold q []).2)).2) := by
  conv_lhs => rw [processingLoop]
  rw [if_neg (Nat.not_lt.mpr hfull)]

/-- The accumulation loop reaches the threshold whenever the queued buffers
supply enough samples. -/
theorem collectChunk_length (threshold : Nat) :
    ∀ (q : List (List Sample)) (acc : List Sample),
      threshold ≤ acc.length + (q.map List.length).sum →
      threshold ≤ ((collectChunk threshold q acc).1).length := by
  intro q
  induction q with
  | nil =>
    intro acc h
    unfold collectChunk
    simpa using h
  | cons d rest ih =>
    intro acc h
    unfold collectChunk
    by_cases hlt : acc.length < threshold
    · rw [if_pos hlt]
      apply ih
      simp only [List.length_append, List.map_cons, List.sum_cons] at h ⊢
      omega
    · rw [if_neg hlt]
      exact Nat.le_of_not_lt hlt

/-! ## Claim theorems -/

/-- C2: For every iteration of the batching loop, once the accumulated
sample count reaches `sample_rate × chunk_duration` (`threshold`), exactly
one transcription call is issued for that window (one new entry on the list
of submitted windows), and the accumulation buffer is reset to empty before
the next window begins (the remaining iterations accumulate from the empty
buffer `[]` over the remaining queue). -/
theorem window_one_transcription_call (tf : List Sample → Except String String)
    (threshold : Nat) (tss : List String) (fuel : Nat) (q : List (List Sample))
    (hfull : threshold ≤ ((collectChunk threshold q []).1).length) :
    processingLoop tf threshold tss (fuel + 1) q =
      ((transcribeWindow tf (tss.headD "") (collectChunk threshold q []).1).toList ++
         (processingLoop tf threshold tss.tail fuel ((collectChunk threshold q []).2)).1,
       (collectChunk threshold q []).1 ::
         (processingLoop tf threshold tss.tail fuel ((collectChunk threshold q []).2)).2) :=
  processingLoop_step tf threshold tss fuel q hfull

/-- Witness for C2 at a concrete instance. -/
theorem window_one_transcription_call_witness :
    processingLoop (fun _ => Except.ok "hi") 2 ["t"] (0 + 1) [[0, 1]] =
      ((transcribeWindow (fun _ => Except.ok "hi") (["t"].headD "")
          (collectChunk 2 [[0, 1]] []).1).toList ++
         (processingLoop (fun _ => Except.ok "hi") 2 ["t"].tail 0
            ((collectChunk 2 [[0, 1]] []).2)).1,
       (collectChunk 2 [[0, 1]] []).1 ::
         (processingLoop (fun _ => Except.ok "hi") 2 ["t"].tail 0
            ((collectChunk 2 [[0, 1]] []).2)).2) :=
  window_one_transcription_call (fun _ => Except.ok "hi") 2 ["t"] 0 [[0, 1]] (by decide)

/-- C10: Every audio window submitted to transcription has a sample count at
least `threshold = sample_rate × chunk_duration` (given that the queued
driver buffers supply enough samples), and may strictly exceed it, because
the accumulation loop appends entire queued buffers and checks the
threshold only between buffers: a single queued buffer of `threshold + 1`
samples yields a window of `threshold + 1 > threshold` samples. -/
theorem window_at_least_threshold (threshold : Nat) (q : List (List Sample))
    (h : threshold ≤ (q.map List.length).sum) :
    threshold ≤ ((collectChunk threshold q []).1).length ∧
    (0 < threshold →
      threshold <
        ((collectChunk threshold [List.replicate (threshold + 1) 0] []).1).length) := by
  constructor
  · exact collectChunk_length threshold q [] (by simpa using h)
  · intro hpos
    simp [collectChunk, hpos]

/-- Witness for C10 at a concrete instance. -/
theorem window_at_least_threshold_witness :
    2 ≤ ((collectChunk 2 [[0, 1, 2]] []).1).length ∧
    2 < ((collectChunk 2 [List.replicate (2 + 1) 0] []).1).length :=
  ⟨(window_at_least_threshold 2 [[0, 1, 2]] (by decide)).1,
   (window_at_least_threshold 2 [[0, 1, 2]] (by decide)).2 (by decide)⟩

/-- C7: Any exception raised while transcribing a single window is caught:
nothing is enqueued onto the results queue for that window (the results of
the run equal the results of the remaining iterations alone), the window is
dropped and not retried, and the batching loop continues with a fresh empty
window over the remaining queue (while the window still counts exactly one
transcription call). -/
theorem transcription_error_drops_window (tf : List Sample → Except String String)
    (threshold : Nat) (tss : List String) (fuel : Nat) (q : List (List Sample)) (e : String)
    (hfull : threshold ≤ ((collectChunk threshold q []).1).length)
    (herr : tf ((collectChunk threshold q []).1) = Except.error e) :
    (processingLoop tf threshold tss (fuel + 1) q).1 =
        (processingLoop tf threshold tss.tail fuel ((collectChunk threshold q []).2)).1 ∧
    (processingLoop tf threshold tss (fuel + 1) q).2 =
        (collectChunk threshold q []).1 ::
          (processingLoop tf threshold tss.tail fuel ((collectChunk threshold q []).2)).2 := by
  have hnone : transcribeWindow tf (tss.headD "") (collectChunk threshold q []).1 = none := by
    unfold transcribeWindow
    rw [herr]
  rw [processingLoop_step tf threshold tss fuel q hfull, hnone]
  exact ⟨rfl, rfl⟩

/-- Witness for C7 at a concrete instance. -/
theorem transcription_error_drops_window_witness :
    (processingLoop (fun _ => Except.error "boom") 2 ["t"] (0 + 1) [[0, 1]]).1 =
        (processingLoop (fun _ => Except.error "boom") 2 ["t"].tail 0
            ((collectChunk 2 [[0, 1]] []).2)).1 ∧
    (processingLoop (fun _ => Except.error "boom") 2 ["t"] (0 + 1) [[0, 1]]).2 =
        (collectChunk 2 [[0, 1]] []).1 ::
          (processingLoop (fun _ => Except.error "boom") 2 ["t"].tail 0
              ((collectChunk 2 [[0, 1]] []).2)).2 :=
  transcription_error_drops_window (fun _ => Except.error "boom") 2 ["t"] 0 [[0, 1]] "boom"
    (by decide) rfl

/-- C5: A transcript line is enqueued on the results queue (and hence
appended to the log) only if the transcription service returned text that is
non-empty after whitespace stripping; an empty or whitespace-only
transcription result produces no transcript line. -/
theorem transcript_line_requires_text (tf : List Sample → Except String String)
    (timestamp : String) (np_audio : List Sample) :
    (∀ res, transcribeWindow tf timestamp np_audio = some res →
        ∃ raw, tf np_audio = Except.ok raw ∧ pyStrip raw ≠ "" ∧
          res = (formatLine timestamp (pyStrip raw), np_audio)) ∧
    (∀ raw, tf np_audio = Except.ok raw → pyStrip raw = "" →
        transcribeWindow tf timestamp np_audio = none) := by
  constructor
  · intro res hres
    unfold transcribeWindow at hres
    cases htf : tf np_audio with
    | error e =>
      rw [htf] at hres
      exact absurd hres (by simp)
    | ok raw =>
      rw [htf] at hres
      dsimp only at hres
      by_cases hempty : pyStrip raw = ""
      · rw [if_pos hempty] at hres
        exact absurd hres (by simp)
      · rw [if_neg hempty] at hres
        exact ⟨raw, rfl, hempty, (Option.some.injEq _ _ ▸ hres).symm⟩
  · intro raw htf hempty
    unfold transcribeWindow
    rw [htf]
    dsimp only
    rw [if_pos hempty]

/-- Witness for C5 at a concrete instance: a whitespace-only transcription
result enqueues nothing. -/
theorem transcript_line_requires_text_witness :
    transcribeWindow (fun _ => Except.ok "   ") "t" [] = none :=
  (transcript_line_requires_text (fun _ => Except.ok "   ") "t" []).2 "   " rfl (by decide)

/-- C1: Starting from a state satisfying the boundary invariant
`last_summary_idx ≤ transcript_text.length`, after one tick of either front
end the cursor still satisfies the invariant, has not decreased, and, when
the summarization check fires, equals exactly the log length observed at
check time.  (`interval` is `SUMMARY_INTERVAL`: `25` in `scribe.py`, `15`
in `scribe_cli.py`; the theorem covers both.) -/
theorem tick_boundary_invariant (interval : Nat) (chat : String → Except String String)
    (timestamp : String) (results : List (String × List Sample)) (s : AppState)
    (h : s.last_summary_idx ≤ s.transcript_text.length) :
    (tick interval chat timestamp results s).last_summary_idx ≤
        (tick interval chat timestamp results s).transcript_text.length ∧
    s.last_summary_idx ≤ (tick interval chat timestamp results s).last_summary_idx ∧
    ((interval : Int) ≤ ((s.transcript_text ++ results.map Prod.fst).length : Int) -
          (s.last_summary_idx : Int) →
        (tick interval chat timestamp results s).last_summary_idx =
          (s.transcript_text ++ results.map Prod.fst).length) := by
  unfold tick summaryCheck
  dsimp only
  split
  · refine ⟨le_refl _, ?_, fun _ => rfl⟩
    simp only [List.length_append]
    omega
  · next hc =>
    refine ⟨?_, le_refl _, fun hx => absurd hx hc⟩
    simp only [List.length_append]
    omega

/-- Witness for C1 at a concrete instance. -/
theorem tick_boundary_invariant_witness :
    (tick 1 (fun _ => Except.error "down") "t" [("**[t]** a", [0])]
          ⟨false, [], [], "", 0⟩).last_summary_idx ≤
        (tick 1 (fun _ => Except.error "down") "t" [("**[t]** a", [0])]
          ⟨false, [], [], "", 0⟩).transcript_text.length ∧
    (0 : Nat) ≤ (tick 1 (fun _ => Except.error "down") "t" [("**[t]** a", [0])]
          ⟨false, [], [], "", 0⟩).last_summary_idx ∧
    ((1 : Int) ≤ ((([] : List String) ++ [("**[t]** a", [(0 : Sample)])].map Prod.fst).length : Int) -
          ((0 : Nat) : Int) →
        (tick 1 (fun _ => Except.error "down") "t" [("**[t]** a", [0])]
          ⟨false, [], [], "", 0⟩).last_summary_idx =
          (([] : List String) ++ [("**[t]** a", [(0 : Sample)])].map Prod.fst).length) :=
  tick_boundary_invariant 1 (fun _ => Except.error "down") "t" [("**[t]** a", [0])]
    ⟨false, [], [], "", 0⟩ (by decide)

/-- C3: If the summarization service call raises an exception, the summary
log still grows by exactly one entry containing the visible error string
`"⚠️ LLM Error: …"`, the boundary cursor still advances to the current log
length (the failed span is never retried), and the transcript accumulation
of the tick is unaffected. -/
theorem summary_error_still_advances (interval : Nat) (chat : String → Except String String)
    (timestamp : String) (results : List (String × List Sample)) (s : AppState) (e : String)
    (hfire : (interval : Int) ≤ ((s.transcript_text ++ results.map Prod.fst).length : Int) -
        (s.last_summary_idx : Int))
    (herr : chat (buildPrompt (String.intercalate " "
        (((s.transcript_text ++ results.map Prod.fst).drop s.last_summary_idx).map
          stripTimestamp))) = Except.error e) :
    (tick interval chat timestamp results s).summary_log =
        s.summary_log ++ "\n\n**Time " ++ timestamp ++ "**\n" ++ ("⚠️ LLM Error: " ++ e) ∧
    (tick interval chat timestamp results s).last_summary_idx =
        (s.transcript_text ++ results.map Prod.fst).length ∧
    (tick interval chat timestamp results s).transcript_text =
        s.transcript_text ++ results.map Prod.fst := by
  unfold tick summaryCheck generate_summary
  dsimp only
  rw [if_pos hfire, herr]
  exact ⟨rfl, rfl, rfl⟩

/-- Witness for C3 at a concrete instance. -/
theorem summary_error_still_advances_witness :
    (tick 2 (fun _ => Except.error "down") "10:00" []
          ⟨false, ["**[00:00:01]** hello", "**[00:00:02]** world"], [], "", 0⟩).summary_log =
        "" ++ "\n\n**Time " ++ "10:00" ++ "**\n" ++ ("⚠️ LLM Error: " ++ "down") ∧
    (tick 2 (fun _ => Except.error "down") "10:00" []
          ⟨false, ["**[00:00:01]** hello", "**[00:00:02]** world"], [], "", 0⟩).last_summary_idx =
        (["**[00:00:01]** hello", "**[00:00:02]** world"] ++
          ([] : List (String × List Sample)).map Prod.fst).length ∧
    (tick 2 (fun _ => Except.error "down") "10:00" []
          ⟨false, ["**[00:00:01]** hello", "**[00:00:02]** world"], [], "", 0⟩).transcript_text =
        ["**[00:00:01]** hello", "**[00:00:02]** world"] ++
          ([] : List (String × List Sample)).map Prod.fst :=
  summary_error_still_advances 2 (fun _ => Except.error "down") "10:00" []
    ⟨false, ["**[00:00:01]** hello", "**[00:00:02]** world"], [], "", 0⟩ "down"
    (by decide) rfl

/-- C4: When a summarization check fires, the text submitted to the
summarization service is the space-joined concatenation of the
timestamp-stripped text of all transcript lines from the boundary to the
current log length, and the boundary advances to that length; in
particular, on `["**[00:00:01]** hello", "**[00:00:02]** world"]` with
`summary_interval = 2` exactly one summarization call is made, with input
`"hello world"`, and the boundary advances to `2`. -/
theorem summary_input_is_clean_join (interval : Nat) (chat : String → Except String String)
    (timestamp : String) (transcript_text : List String) (summary_log : String)
    (last_summary_idx : Nat)
    (hfire : (interval : Int) ≤ (transcript_text.length : Int) - (last_summary_idx : Int)) :
    (summaryCheck interval chat timestamp transcript_text summary_log
        last_summary_idx).submitted =
      some (String.intercalate " "
        ((transcript_text.drop last_summary_idx).map stripTimestamp)) ∧
    (summaryCheck interval chat timestamp transcript_text summary_log
        last_summary_idx).last_summary_idx = transcript_text.length ∧
    (summaryCheck 2 chat timestamp ["**[00:00:01]** hello", "**[00:00:02]** world"] ""
        0).submitted = some "hello world" ∧
    (summaryCheck 2 chat timestamp ["**[00:00:01]** hello", "**[00:00:02]** world"] ""
        0).last_summary_idx = 2 := by
  refine ⟨?_, ?_, rfl, rfl⟩ <;>
    · unfold summaryCheck
      dsimp only
      rw [if_pos hfire]

/-- Witness for C4 at a concrete instance. -/
theorem summary_input_is_clean_join_witness :
    (summaryCheck 2 (fun _ => Except.ok "fine") "t"
        ["**[00:00:01]** hello", "**[00:00:02]** world"] "" 0).submitted =
      some (String.intercalate " "
        ((["**[00:00:01]** hello", "**[00:00:02]** world"].drop 0).map stripTimestamp)) ∧
    (summaryCheck 2 (fun _ => Except.ok "fine") "t"
        ["**[00:00:01]** hello", "**[00:00:02]** world"] "" 0).last_summary_idx =
      ["**[00:00:01]** hello", "**[00:00:02]** world"].length ∧
    (summaryCheck 2 (fun _ => Except.ok "fine") "t"
        ["**[00:00:01]** hello", "**[00:00:02]** world"] "" 0).submitted =
      some "hello world" ∧
    (summaryCheck 2 (fun _ => Except.ok "fine") "t"
        ["**[00:00:01]** hello", "**[00:00:02]** world"] "" 0).last_summary_idx = 2 :=
  summary_input_is_clean_join 2 (fun _ => Except.ok "fine") "t"
    ["**[00:00:01]** hello", "**[00:00:02]** world"] "" 0 (by decide)

/-- C6 counterexample: in the CLI front end, performing the save action with
an empty transcript log does not write a transcript text file at all
(`save_data` guards the write with `if transcript_text:`), contradicting
the claim that both front ends write an empty file. -/
theorem cli_empty_save_writes_no_file :
    (save_data_files ⟨false, [], [], "", 0⟩).transcript_file = none ∧
    (save_data_files ⟨false, [], [], "", 0⟩).transcript_file ≠ some "" := by decide

/-- C6 (amended): performing the save action with an empty transcript log
writes an empty transcript file (overwriting any existing file, without
error) in the Streamlit front end only; the CLI front end's `save_data`
skips the transcript write entirely when the log is empty, leaving any
existing file untouched. -/
theorem empty_transcript_save (s : AppState) (h : s.transcript_text = []) :
    (scribeSaveFiles s).transcript_file = some "" ∧
    (save_data_files s).transcript_file = none := by
  unfold scribeSaveFiles save_data_files
  rw [h]
  exact ⟨rfl, rfl⟩

/-- Witness for (amended) C6 at a concrete instance. -/
theorem empty_transcript_save_witness :
    (scribeSaveFiles ⟨true, [], [[0]], "log", 3⟩).transcript_file = some "" ∧
    (save_data_files ⟨true, [], [[0]], "log", 3⟩).transcript_file = none :=
  empty_transcript_save ⟨true, [], [[0]], "log", 3⟩ rfl

/-- C9: The save action does not alter program state: after saving, the
recording flag, transcript log, audio buffer, summary log, and boundary
cursor all equal their values before the save, in either front end and in
either the Idle or Listening state (`s.recording` arbitrary). -/
theorem save_preserves_state (s : AppState) :
    (scribeSaveAction s).1.recording = s.recording ∧
    (scribeSaveAction s).1.transcript_text = s.transcript_text ∧
    (scribeSaveAction s).1.audio_buffer = s.audio_buffer ∧
    (scribeSaveAction s).1.summary_log = s.summary_log ∧
    (scribeSaveAction s).1.last_summary_idx = s.last_summary_idx ∧
    (save_data_action s).1 = s :=
  ⟨rfl, rfl, rfl, rfl, rfl, rfl⟩

/-- The scan finds no index exactly when no name contains `"BlackHole"`. -/
theorem findBlackHoleIdx_none_iff (l : List String) :
    findBlackHoleIdx l = none ↔ ∀ n ∈ l, pyContains n "BlackHole" = false := by
  induction l with
  | nil => simp [findBlackHoleIdx]
  | cons n rest ih =>
    unfold findBlackHoleIdx
    by_cases hb : pyContains n "BlackHole"
    · simp [hb]
    · simp only [Bool.not_eq_true] at hb
      simp [hb, ih, Option.map_eq_none']

/-- When the scan returns `some i`, position `i` holds the first name
containing `"BlackHole"`: it matches, and no earlier position does. -/
theorem findBlackHoleIdx_some (l : List String) (i : Nat)
    (h : findBlackHoleIdx l = some i) :
    (∃ nm, l.get? i = some nm ∧ pyContains nm "BlackHole" = true) ∧
    ∀ j, j < i → ∀ nm, l.get? j = some nm → pyContains nm "BlackHole" = false := by
  induction l generalizing i with
  | nil => simp [findBlackHoleIdx] at h
  | cons n rest ih =>
    unfold findBlackHoleIdx at h
    by_cases hb : pyContains n "BlackHole"
    · rw [if_pos hb] at h
      obtain rfl : i = 0 := (Option.some.injEq _ _ ▸ h).symm
      exact ⟨⟨n, rfl, hb⟩, fun j hj => absurd hj (Nat.not_lt_zero j)⟩
    · rw [if_neg hb] at h
      cases hr : findBlackHoleIdx rest with
      | none => rw [hr] at h; simp at h
      | some k =>
        rw [hr] at h
        simp only [Option.map_some', Option.some.injEq] at h
        subst h
        obtain ⟨⟨nm, hget, hbh⟩, hbefore⟩ := ih k hr
        refine ⟨⟨nm, by simpa using hget, hbh⟩, ?_⟩
        intro j hj nm' hget'
        cases j with
        | zero =>
          simp only [List.get?] at hget'
          obtain rfl : nm' = n := (Option.some.injEq _ _ ▸ hget').symm
          simpa using hb
        | succ j' =>
          exact hbefore j' (Nat.lt_of_succ_lt_succ hj) nm' (by simpa using hget')

/-- C8: For every enumerated device list, restricted to input devices
(`max_input_channels > 0`): (i) the `"BlackHole"` scan fails exactly when no
input device's name contains the marker; (ii) when it returns index `i`,
position `i` holds the first input device whose name contains the marker,
and both front ends pick exactly that device as the default in absence of
explicit user choice; (iii) otherwise both front ends default to the first
input device. -/
theorem default_device_selection (device_list : List Device)
    (hne : inputDevices device_list ≠ []) :
    (findBlackHoleIdx ((inputDevices device_list).map Device.name) = none ↔
        ∀ d ∈ inputDevices device_list, pyContains d.name "BlackHole" = false) ∧
    (∀ i, findBlackHoleIdx ((inputDevices device_list).map Device.name) = some i →
        ∃ d, (inputDevices device_list).get? i = some d ∧
          pyContains d.name "BlackHole" = true ∧
          (∀ j, j < i → ∀ d', (inputDevices device_list).get? j = some d' →
            pyContains d'.name "BlackHole" = false) ∧
          scribeDefaultSelection device_list = some d.name ∧
          cliDefaultSelection device_list = some d) ∧
    (findBlackHoleIdx ((inputDevices device_list).map Device.name) = none →
        scribeDefaultSelection device_list = ((inputDevices device_list).map Device.name).get? 0 ∧
        cliDefaultSelection device_list = (inputDevices device_list).get? 0) := by
  have hempty : (inputDevices device_list).isEmpty = false := by
    cases hcase : inputDevices device_list with
    | nil => exact absurd hcase hne
    | cons a l => rfl
  refine ⟨?_, ?_, ?_⟩
  · constructor
    · intro hnone d hd
      exact (findBlackHoleIdx_none_iff _).mp hnone d.name (List.mem_map_of_mem Device.name hd)
    · intro hall
      refine (findBlackHoleIdx_none_iff _).mpr ?_
      intro nm hnm
      obtain ⟨d, hd, rfl⟩ := List.mem_map.mp hnm
      exact hall d hd
  · intro i hi
    obtain ⟨⟨nm, hget, hbh⟩, hbefore⟩ := findBlackHoleIdx_some _ i hi
    rw [List.get?_map] at hget
    cases hd : (inputDevices device_list).get? i with
    | none => rw [hd] at hget; simp at hget
    | some d =>
      rw [hd] at hget
      simp only [Option.map_some', Option.some.injEq] at hget
      refine ⟨d, rfl, hget ▸ hbh, ?_, ?_, ?_⟩
      · intro j hj d' hd'
        exact hbefore j hj d'.name (by rw [List.get?_map, hd']; rfl)
      · unfold scribeDefaultSelection scribeDefaultIdx scribeInputNames
        rw [hi]
        simp only [Option.getD_some, List.get?_map, hd, Option.map_some']
      · unfold cliDefaultSelection
        rw [if_neg (by simp [hempty])]
        dsimp only
        rw [hi]
        simpa using hd
  · intro hnone
    constructor
    · unfold scribeDefaultSelection scribeDefaultIdx scribeInputNames
      rw [hnone]
      rfl
    · unfold cliDefaultSelection
      rw [if_neg (by simp [hempty])]
      dsimp only
      rw [hnone]
      rfl

/-- Witness for C8 at a concrete instance: `"BlackHole 2ch"` is the second
input device and becomes the default in both front ends. -/
theorem default_device_selection_witness :
    scribeDefaultSelection
        [⟨"MacBook Microphone", 1, 0⟩, ⟨"BlackHole 2ch", 2, 1⟩, ⟨"Speakers", 0, 2⟩] =
      some "BlackHole 2ch" ∧
    cliDefaultSelection
        [⟨"MacBook Microphone", 1, 0⟩, ⟨"BlackHole 2ch", 2, 1⟩, ⟨"Speakers", 0, 2⟩] =
      some ⟨"BlackHole 2ch", 2, 1⟩ := by
  obtain ⟨d, hd, -, -, hscribe, hcli⟩ :=
    (default_device_selection
        [⟨"MacBook Microphone", 1, 0⟩, ⟨"BlackHole 2ch", 2, 1⟩, ⟨"Speakers", 0, 2⟩]
        (by decide)).2.1 1 (by decide)
  obtain rfl : d = ⟨"BlackHole 2ch", 2, 1⟩ := by
    have : (inputDevices
        [⟨"MacBook Microphone", 1, 0⟩, ⟨"BlackHole 2ch", 2, 1⟩, ⟨"Speakers", 0, 2⟩]).get? 1 =
        some ⟨"BlackHole 2ch", 2, 1⟩ := by decide
    rw [this] at hd
    exact (Option.some.injEq _ _ ▸ hd.symm)
  exact ⟨hscribe, hcli⟩

end LiveScribe
